import Mathlib

/-
Shallow embedding of the GongDeIncrease Solana programs.

Source files embedded:
  src/solana/src/utils.rs  - u32 counter codec, raw-byte instruction tag decoding
  src/solana/src/lib.rs    - borsh-routed u64 counter handlers
    (process_initialize, process_increment, process_reset, process_close)

Bytes are modelled as natural numbers below 256 in lists; u32 and u64
arithmetic is modelled on Nat with explicit bounds where overflow matters.
Fallible Rust code returning Result is modelled with Except / Option; a Rust
panic (unwrap of None) is modelled as a distinct RunResult outcome.
-/

namespace GongDe

/-- Program errors used by the embedded code (a subset of Solana's
ProgramError; Custom stands for errors surfaced by external CPI calls,
BorshIoError for borsh serialization failures mapped through the ? operator). -/
inductive ProgramError where
  | NotEnoughAccountKeys
  | MissingRequiredSignature
  | InvalidAccountData
  | InvalidInstructionData
  | AccountDataTooSmall
  | ArithmeticOverflow
  | BorshIoError
  | Custom
deriving DecidableEq

/-- Embeds GONGDE_VALUE_SIZE from src/solana/src/utils.rs: the u32 counter
value occupies 4 bytes. -/
def GONGDE_VALUE_SIZE : Nat := 4

/-- Little-endian u32 reconstruction, embedding u32::from_le_bytes on the
four bytes b0..b3 (b0 least significant). -/
def u32FromLeBytes (b0 b1 b2 b3 : Nat) : Nat :=
  b0 + b1 * 256 + b2 * 65536 + b3 * 16777216

/-- Little-endian u32 byte decomposition, embedding u32::to_le_bytes. -/
def u32ToLeBytes (v : Nat) : List Nat :=
  [v % 256, v / 256 % 256, v / 65536 % 256, v / 16777216 % 256]

/-- Embeds read_gongde_value from src/solana/src/utils.rs: fails with
AccountDataTooSmall when fewer than 4 bytes are supplied, otherwise reads a
little-endian u32 from the first 4 bytes. -/
def read_gongde_value (data : List Nat) : Except ProgramError Nat :=
  if data.length < GONGDE_VALUE_SIZE then
    .error .AccountDataTooSmall
  else
    .ok (u32FromLeBytes (data.getD 0 0) (data.getD 1 0) (data.getD 2 0) (data.getD 3 0))

/-- Embeds write_gongde_value from src/solana/src/utils.rs: fails with
AccountDataTooSmall when the buffer holds fewer than 4 bytes, otherwise
overwrites the first 4 bytes with the little-endian encoding of value. -/
def write_gongde_value (data : List Nat) (value : Nat) : Except ProgramError (List Nat) :=
  if data.length < GONGDE_VALUE_SIZE then
    .error .AccountDataTooSmall
  else
    .ok (u32ToLeBytes value ++ data.drop GONGDE_VALUE_SIZE)

/-- Embeds the GongDeInstruction enum from src/solana/src/utils.rs. -/
inductive GongDeInstruction where
  | Increment
  | Close
deriving DecidableEq

/-- Embeds GongDeInstruction::from_instruction_data from
src/solana/src/utils.rs: reads the first byte of the payload, defaulting to
255 when the payload is empty (first().copied().unwrap_or(255)), then maps
0 to Increment, 1 to Close, and anything else to InvalidInstructionData. -/
def from_instruction_data (instruction_data : List Nat) : Except ProgramError GongDeInstruction :=
  match instruction_data.head?.getD 255 with
  | 0 => .ok .Increment
  | 1 => .ok .Close
  | _ => .error .InvalidInstructionData

/-- Modulus of u64 arithmetic, 2 to the 64. -/
def U64_MOD : Nat := 18446744073709551616

/-- Little-endian u64 byte decomposition, embedding u64::to_le_bytes as used
by borsh serialization of CounterAccount in src/solana/src/lib.rs. -/
def u64ToLeBytes (v : Nat) : List Nat :=
  [v % 256, v / 256 % 256, v / 65536 % 256, v / 16777216 % 256,
   v / 4294967296 % 256, v / 1099511627776 % 256,
   v / 281474976710656 % 256, v / 72057594037927936 % 256]

/-- Little-endian u64 reconstruction from a byte list, embedding
u64::from_le_bytes as used by borsh deserialization of CounterAccount. -/
def u64FromLeBytes (data : List Nat) : Nat :=
  data.getD 0 0 + data.getD 1 0 * 256 + data.getD 2 0 * 65536 +
  data.getD 3 0 * 16777216 + data.getD 4 0 * 4294967296 +
  data.getD 5 0 * 1099511627776 + data.getD 6 0 * 281474976710656 +
  data.getD 7 0 * 72057594037927936

/-- Embeds CounterAccount::try_from_slice (borsh) from src/solana/src/lib.rs:
borsh deserialization of a struct holding a single u64 consumes exactly 8
bytes and fails both when the slice is shorter and when bytes are left over
(try_from_slice rejects unconsumed trailing bytes). -/
def counterTryFromSlice (data : List Nat) : Option Nat :=
  if data.length = 8 then some (u64FromLeBytes data) else none

/-- Embeds CounterAccount::serialize into a mutable byte slice (borsh, via
the Write impl for mutable slices): writes the 8 little-endian bytes of the
count at the front of the buffer, leaving the rest unchanged, and fails when
the buffer holds fewer than 8 bytes. -/
def counterSerializeInto (count : Nat) (data : List Nat) : Option (List Nat) :=
  if 8 ≤ data.length then some (u64ToLeBytes count ++ data.drop 8) else none

/-- Embeds u64::checked_add: returns none exactly when the mathematical sum
does not fit in a u64. -/
def checkedAddU64 (a b : Nat) : Option Nat :=
  if a + b < U64_MOD then some (a + b) else none

/-- Account model for src/solana/src/lib.rs: the fields of AccountInfo the
handlers consult, with the public key abstracted to a natural number. -/
structure AccountInfo where
  key : Nat
  isSigner : Bool
  isWritable : Bool
  lamports : Nat
  data : List Nat
deriving DecidableEq

/-- Outcome of a handler invocation: normal success, a typed program error
returned to the runtime, or a Rust panic (modelling unwrap on None). -/
inductive RunResult where
  | ok
  | err (e : ProgramError)
  | panicked
deriving DecidableEq

/-- Embeds process_increment from src/solana/src/lib.rs. It takes the
counter account positionally, requires it writable, borsh-deserializes the
stored count, bumps it with checked_add(1).unwrap() (a panic at u64::MAX),
and borsh-serializes the new count back. The returned list is the account
state after the call, as left at the point of any early return. -/
def processIncrement (accounts : List AccountInfo) : RunResult × List AccountInfo :=
  match accounts with
  | [] => (.err .NotEnoughAccountKeys, accounts)
  | counter :: rest =>
    if counter.isWritable = false then (.err .InvalidAccountData, accounts)
    else
      match counterTryFromSlice counter.data with
      | none => (.err .BorshIoError, accounts)
      | some count =>
        match checkedAddU64 count 1 with
        | none => (.panicked, accounts)
        | some newCount =>
          match counterSerializeInto newCount counter.data with
          | none => (.err .BorshIoError, accounts)
          | some newData => (.ok, { counter with data := newData } :: rest)

/-- Embeds process_reset from src/solana/src/lib.rs: takes the counter
account and the user positionally, requires the counter writable and the
user a signer, then writes count 0 back through borsh. -/
def processReset (accounts : List AccountInfo) : RunResult × List AccountInfo :=
  match accounts with
  | counter :: user :: rest =>
    if counter.isWritable = false then (.err .InvalidAccountData, accounts)
    else if user.isSigner = false then (.err .MissingRequiredSignature, accounts)
    else
      match counterTryFromSlice counter.data with
      | none => (.err .BorshIoError, accounts)
      | some _ =>
        match counterSerializeInto 0 counter.data with
        | none => (.err .BorshIoError, accounts)
        | some newData => (.ok, { counter with data := newData } :: user :: rest)
  | _ => (.err .NotEnoughAccountKeys, accounts)

/-- Embeds process_close from src/solana/src/lib.rs: takes the counter
account and the user positionally, requires the counter writable and the
user a signer, moves the counter's lamports to the user with checked_add
(failing with ArithmeticOverflow), zeroes the counter's lamports, and fills
its data bytes with 0. -/
def processClose (accounts : List AccountInfo) : RunResult × List AccountInfo :=
  match accounts with
  | counter :: user :: rest =>
    if counter.isWritable = false then (.err .InvalidAccountData, accounts)
    else if user.isSigner = false then (.err .MissingRequiredSignature, accounts)
    else
      match checkedAddU64 user.lamports counter.lamports with
      | none => (.err .ArithmeticOverflow, accounts)
      | some newUserLamports =>
        (.ok, { counter with lamports := 0, data := counter.data.map (fun _ => 0) }
              :: { user with lamports := newUserLamports } :: rest)
  | _ => (.err .NotEnoughAccountKeys, accounts)

/-- Embeds process_initialize from src/solana/src/lib.rs. External
collaborators are passed in as parameters: findProgramAddress stands for
Pubkey::find_program_address on the seeds (b"counter", user key) and the
program id, returning the expected address and bump; requiredLamports stands
for Rent::get().minimum_balance(8). The create-account CPI to the system
program (external to this repository) is modelled from the spec section 6
create_storage contract: it fails when the payer lacks funds or the target
account already carries data, and otherwise funds the target with
requiredLamports taken from the payer and allocates 8 zeroed bytes. After a
successful CPI the handler borsh-reads the fresh account, sets count to 0
and borsh-writes it back. -/
def processInitialize (programId : Nat) (findProgramAddress : Nat → Nat → Nat × Nat)
    (requiredLamports : Nat) (accounts : List AccountInfo) : RunResult × List AccountInfo :=
  match accounts with
  | counter :: user :: sys :: rest =>
    if user.isSigner = false then (.err .MissingRequiredSignature, accounts)
    else if counter.key ≠ (findProgramAddress user.key programId).1 then
      (.err .InvalidAccountData, accounts)
    else if 0 < counter.lamports then (.ok, accounts)
    else if user.lamports < requiredLamports then (.err .Custom, accounts)
    else if counter.data ≠ [] then (.err .Custom, accounts)
    else
      let counter1 : AccountInfo :=
        { counter with lamports := requiredLamports, data := List.replicate 8 0 }
      let user1 : AccountInfo := { user with lamports := user.lamports - requiredLamports }
      match counterTryFromSlice counter1.data with
      | none => (.err .BorshIoError, counter1 :: user1 :: sys :: rest)
      | some _ =>
        match counterSerializeInto 0 counter1.data with
        | none => (.err .BorshIoError, counter1 :: user1 :: sys :: rest)
        | some newData => (.ok, { counter1 with data := newData } :: user1 :: sys :: rest)
  | _ => (.err .NotEnoughAccountKeys, accounts)

/-- Reading back the little-endian u64 encoding of a value below 2 to the 64
recovers the value. -/
theorem u64_roundtrip (n : Nat) (h : n < U64_MOD) :
    u64FromLeBytes (u64ToLeBytes n) = n := by
  simp only [u64FromLeBytes, u64ToLeBytes, List.getD, List.get?, Option.getD_some]
  simp only [U64_MOD] at h
  omega

/-- Encoding a u64 always produces exactly 8 bytes. -/
theorem u64ToLeBytes_length (n : Nat) : (u64ToLeBytes n).length = 8 := rfl

/-- C4: for every u32 value v and every buffer of at least 4 bytes, writing
v with write_gongde_value succeeds and reading the result back with
read_gongde_value returns v, that is decode after encode is the identity on
representable values. -/
theorem decode_encode_roundtrip (data : List Nat) (v : Nat)
    (hlen : GONGDE_VALUE_SIZE ≤ data.length) (hv : v < 4294967296) :
    ∃ out, write_gongde_value data v = .ok out ∧ read_gongde_value out = .ok v := by
  refine ⟨u32ToLeBytes v ++ data.drop GONGDE_VALUE_SIZE, ?_, ?_⟩
  · rw [write_gongde_value, if_neg (by omega)]
  · rw [read_gongde_value, if_neg (by simp [u32ToLeBytes, GONGDE_VALUE_SIZE])]
    simp only [u32ToLeBytes, List.cons_append, List.nil_append, List.getD]
    simp only [List.get?]
    simp only [Option.getD_some, u32FromLeBytes]
    congr 1
    omega

/-- C4 witness: the round trip evaluated at value 305419896 on a 6-byte
buffer. -/
theorem decode_encode_roundtrip_witness :
    ∃ out, write_gongde_value [9, 9, 9, 9, 9, 9] 305419896 = .ok out ∧
      read_gongde_value out = .ok 305419896 :=
  decode_encode_roundtrip [9, 9, 9, 9, 9, 9] 305419896 (by decide) (by decide)

/-- C5: read_gongde_value fails with AccountDataTooSmall on every slice
shorter than 4 bytes and succeeds on every slice of at least 4 bytes. -/
theorem read_gongde_value_size_check (data : List Nat) :
    (data.length < GONGDE_VALUE_SIZE →
      read_gongde_value data = .error .AccountDataTooSmall) ∧
    (GONGDE_VALUE_SIZE ≤ data.length → ∃ v, read_gongde_value data = .ok v) := by
  constructor
  · intro h
    rw [read_gongde_value, if_pos h]
  · intro h
    exact ⟨_, by rw [read_gongde_value, if_neg (by omega)]⟩

/-- C5 witness: evaluated on a 2-byte slice (failure) and a 5-byte slice
(success). -/
theorem read_gongde_value_size_check_witness :
    read_gongde_value [1, 2] = .error .AccountDataTooSmall ∧
      ∃ v, read_gongde_value [1, 2, 3, 4, 5] = .ok v :=
  ⟨(read_gongde_value_size_check [1, 2]).1 (by decide),
   (read_gongde_value_size_check [1, 2, 3, 4, 5]).2 (by decide)⟩

/-- C10: on a buffer of at least 4 bytes, write_gongde_value succeeds,
preserves the buffer length, and leaves every byte at offset 4 or beyond
unchanged: only the first 4 bytes are modified. -/
theorem write_gongde_value_frame (data : List Nat) (v : Nat)
    (h : GONGDE_VALUE_SIZE ≤ data.length) :
    ∃ out, write_gongde_value data v = .ok out ∧ out.length = data.length ∧
      out.drop GONGDE_VALUE_SIZE = data.drop GONGDE_VALUE_SIZE ∧
      ∀ i, GONGDE_VALUE_SIZE ≤ i → out[i]? = data[i]? := by
  have h4 : 4 ≤ data.length := h
  refine ⟨u32ToLeBytes v ++ data.drop GONGDE_VALUE_SIZE, ?_, ?_, ?_, ?_⟩
  · rw [write_gongde_value, if_neg (by omega)]
  · simp [u32ToLeBytes, GONGDE_VALUE_SIZE]
    omega
  · simp [u32ToLeBytes, GONGDE_VALUE_SIZE]
  · intro i hi
    have hi4 : 4 ≤ i := hi
    rw [List.getElem?_append_right (by simp [u32ToLeBytes]; omega)]
    rw [List.getElem?_drop]
    congr 1
    simp only [u32ToLeBytes, List.length_cons, List.length_nil, GONGDE_VALUE_SIZE]
    omega

/-- C10 witness: writing 513 into a 6-byte buffer keeps bytes 4 and 5. -/
theorem write_gongde_value_frame_witness :
    ∃ out, write_gongde_value [9, 9, 9, 9, 7, 8] 513 = .ok out ∧
      out.length = 6 ∧ out.drop 4 = [7, 8] ∧
      ∀ i, 4 ≤ i → out[i]? = [9, 9, 9, 9, 7, 8][i]? := by
  obtain ⟨out, h1, h2, h3, h4⟩ := write_gongde_value_frame [9, 9, 9, 9, 7, 8] 513 (by decide)
  exact ⟨out, h1, h2, h3, h4⟩

/-- C3 counterexample: on the raw-byte router an empty payload does not
decode to the Increment command. -/
theorem empty_payload_not_increment :
    from_instruction_data [] ≠ .ok .Increment := by
  intro h
  exact Except.noConfusion h

/-- C3 amended: an empty payload on the raw-byte router fails with
InvalidInstructionData, because the missing first byte defaults to 255,
which is not a known tag. -/
theorem empty_payload_invalid_instruction :
    from_instruction_data [] = .error .InvalidInstructionData := rfl

/-- Borsh deserialization of the canonical 8-byte encoding of a count below
2 to the 64 succeeds and recovers the count. -/
theorem counterTryFromSlice_encode (n : Nat) (h : n < U64_MOD) :
    counterTryFromSlice (u64ToLeBytes n) = some n := by
  rw [counterTryFromSlice, if_pos (u64ToLeBytes_length n), u64_roundtrip n h]

/-- Borsh deserialization of the canonical encoding always succeeds on some
value, the count being irrelevant. -/
theorem counterTryFromSlice_encode_isSome (n : Nat) :
    counterTryFromSlice (u64ToLeBytes n) = some (u64FromLeBytes (u64ToLeBytes n)) := by
  rw [counterTryFromSlice, if_pos (u64ToLeBytes_length n)]

/-- Borsh serialization of a count into an exactly 8-byte buffer replaces
the buffer with the canonical encoding. -/
theorem counterSerializeInto_encode (m n : Nat) :
    counterSerializeInto m (u64ToLeBytes n) = some (u64ToLeBytes m) := by
  rw [counterSerializeInto, if_pos (by rw [u64ToLeBytes_length])]
  simp [u64ToLeBytes]

/-- C1 counterexample: process_increment on a writable account storing
u64::MAX does not return success with the value saturated; the
checked_add(1).unwrap() call panics. -/
theorem increment_at_max_counterexample :
    (processIncrement [⟨0, false, true, 0, u64ToLeBytes (U64_MOD - 1)⟩]).1 =
      RunResult.panicked := by
  have h1 : counterTryFromSlice (u64ToLeBytes (U64_MOD - 1)) = some (U64_MOD - 1) :=
    counterTryFromSlice_encode _ (by decide)
  have h2 : checkedAddU64 (U64_MOD - 1) 1 = none := by
    rw [checkedAddU64, if_neg (by decide)]
  simp [processIncrement, h1, h2]

/-- C1 amended: process_increment on a writable account storing u64::MAX
panics (checked_add returns None and unwrap panics) and mutates nothing; in
particular the value neither wraps around nor saturates. -/
theorem increment_at_max_panics (a : AccountInfo) (rest : List AccountInfo)
    (hw : a.isWritable = true) (hd : a.data = u64ToLeBytes (U64_MOD - 1)) :
    processIncrement (a :: rest) = (.panicked, a :: rest) := by
  have h1 : counterTryFromSlice (u64ToLeBytes (U64_MOD - 1)) = some (U64_MOD - 1) :=
    counterTryFromSlice_encode _ (by decide)
  have h2 : checkedAddU64 (U64_MOD - 1) 1 = none := by
    rw [checkedAddU64, if_neg (by decide)]
  simp [processIncrement, hw, hd, h1, h2]

/-- C1 amended witness: evaluated on a concrete account at u64::MAX. -/
theorem increment_at_max_panics_witness :
    processIncrement [⟨0, false, true, 0, u64ToLeBytes (U64_MOD - 1)⟩] =
      (.panicked, [⟨0, false, true, 0, u64ToLeBytes (U64_MOD - 1)⟩]) :=
  increment_at_max_panics ⟨0, false, true, 0, u64ToLeBytes (U64_MOD - 1)⟩ [] rfl rfl

/-- C2 counterexample: a writable account holding the value 0 in a 9-byte
buffer (at least the 8-byte encoding width) makes process_increment fail
with a borsh error rather than succeed, because try_from_slice rejects
trailing bytes. -/
theorem increment_nine_byte_counterexample :
    (processIncrement [⟨0, false, true, 0, List.replicate 9 0⟩]).1 =
      RunResult.err .BorshIoError := by
  simp [processIncrement, counterTryFromSlice]

/-- C2 amended: for every count n below u64::MAX, process_increment on a
writable account whose data is exactly the 8-byte encoding of n succeeds
and leaves the account holding the encoding of n + 1. -/
theorem increment_success (a : AccountInfo) (rest : List AccountInfo) (n : Nat)
    (hw : a.isWritable = true) (hn : n < U64_MOD - 1) (hd : a.data = u64ToLeBytes n) :
    processIncrement (a :: rest) = (.ok, { a with data := u64ToLeBytes (n + 1) } :: rest) := by
  have hn1 : n + 1 < U64_MOD := by
    have : 0 < U64_MOD := by decide
    omega
  have h1 : counterTryFromSlice (u64ToLeBytes n) = some n :=
    counterTryFromSlice_encode n (by omega)
  have h2 : checkedAddU64 n 1 = some (n + 1) := by
    rw [checkedAddU64, if_pos hn1]
  simp [processIncrement, hw, hd, h1, h2, counterSerializeInto_encode]

/-- C2 amended witness: incrementing a concrete account holding 5 yields 6. -/
theorem increment_success_witness :
    processIncrement [⟨0, false, true, 0, u64ToLeBytes 5⟩] =
      (.ok, [⟨0, false, true, 0, u64ToLeBytes 6⟩]) :=
  increment_success ⟨0, false, true, 0, u64ToLeBytes 5⟩ [] 5 rfl (by decide) rfl

/-- C6: process_reset on a writable counter account holding any count n
succeeds and stores the encoding of 0 when the user signed, and fails with
MissingRequiredSignature, mutating nothing, when the user did not sign. -/
theorem reset_spec (counter user : AccountInfo) (rest : List AccountInfo) (n : Nat)
    (hw : counter.isWritable = true) (hd : counter.data = u64ToLeBytes n) :
    (user.isSigner = true →
      processReset (counter :: user :: rest) =
        (.ok, { counter with data := u64ToLeBytes 0 } :: user :: rest)) ∧
    (user.isSigner = false →
      processReset (counter :: user :: rest) =
        (.err .MissingRequiredSignature, counter :: user :: rest)) := by
  constructor
  · intro hs
    simp [processReset, hw, hs, hd, counterTryFromSlice_encode_isSome,
      counterSerializeInto_encode]
  · intro hs
    simp [processReset, hw, hs]

/-- C6 witness: evaluated with a signing user (count 7 resets to 0) and with
a non-signing user (MissingRequiredSignature). -/
theorem reset_spec_witness :
    processReset [⟨0, false, true, 0, u64ToLeBytes 7⟩, ⟨1, true, false, 0, []⟩] =
      (.ok, [⟨0, false, true, 0, u64ToLeBytes 0⟩, ⟨1, true, false, 0, []⟩]) ∧
    processReset [⟨0, false, true, 0, u64ToLeBytes 7⟩, ⟨1, false, false, 0, []⟩] =
      (.err .MissingRequiredSignature,
       [⟨0, false, true, 0, u64ToLeBytes 7⟩, ⟨1, false, false, 0, []⟩]) :=
  ⟨(reset_spec ⟨0, false, true, 0, u64ToLeBytes 7⟩ ⟨1, true, false, 0, []⟩ [] 7
      rfl rfl).1 rfl,
   (reset_spec ⟨0, false, true, 0, u64ToLeBytes 7⟩ ⟨1, false, false, 0, []⟩ [] 7
      rfl rfl).2 rfl⟩

/-- C7: process_close on a writable counter account with a signing user
zeroes the counter's data bytes and lamports and credits the user with
exactly the counter's prior lamports when the sum fits in a u64, and fails
with ArithmeticOverflow, mutating nothing, when the sum would overflow. -/
theorem close_spec (counter user : AccountInfo) (rest : List AccountInfo)
    (hw : counter.isWritable = true) (hs : user.isSigner = true) :
    (user.lamports + counter.lamports < U64_MOD →
      processClose (counter :: user :: rest) =
        (.ok, { counter with lamports := 0, data := List.replicate counter.data.length 0 }
              :: { user with lamports := user.lamports + counter.lamports } :: rest)) ∧
    (U64_MOD ≤ user.lamports + counter.lamports →
      processClose (counter :: user :: rest) =
        (.err .ArithmeticOverflow, counter :: user :: rest)) := by
  constructor
  · intro hlt
    have h1 : checkedAddU64 user.lamports counter.lamports =
        some (user.lamports + counter.lamports) := by
      rw [checkedAddU64, if_pos hlt]
    simp [processClose, hw, hs, h1, List.map_const']
  · intro hge
    have h1 : checkedAddU64 user.lamports counter.lamports = none := by
      rw [checkedAddU64, if_neg (by omega)]
    simp [processClose, hw, hs, h1]

/-- C7 witness: closing a concrete account with 10 lamports credits the
user holding 5 lamports with 15, and the overflow case fails. -/
theorem close_spec_witness :
    processClose [⟨0, false, true, 10, [3, 4]⟩, ⟨1, true, false, 5, []⟩] =
      (.ok, [⟨0, false, true, 0, [0, 0]⟩, ⟨1, true, false, 15, []⟩]) ∧
    processClose [⟨0, false, true, U64_MOD - 1, []⟩, ⟨1, true, false, 2, []⟩] =
      (.err .ArithmeticOverflow,
       [⟨0, false, true, U64_MOD - 1, []⟩, ⟨1, true, false, 2, []⟩]) :=
  ⟨(close_spec ⟨0, false, true, 10, [3, 4]⟩ ⟨1, true, false, 5, []⟩ [] rfl rfl).1
      (by decide),
   (close_spec ⟨0, false, true, U64_MOD - 1, []⟩ ⟨1, true, false, 2, []⟩ [] rfl rfl).2
      (by decide)⟩

/-- State returned by process_increment equals the input whenever the run
is not a clean success. -/
theorem processIncrement_frame (accounts : List AccountInfo) :
    (processIncrement accounts).1 = .ok ∨ (processIncrement accounts).2 = accounts := by
  unfold processIncrement
  repeat' split
  all_goals simp

/-- State returned by process_reset equals the input whenever the run is
not a clean success. -/
theorem processReset_frame (accounts : List AccountInfo) :
    (processReset accounts).1 = .ok ∨ (processReset accounts).2 = accounts := by
  unfold processReset
  repeat' split
  all_goals simp

/-- State returned by process_close equals the input whenever the run is
not a clean success. -/
theorem processClose_frame (accounts : List AccountInfo) :
    (processClose accounts).1 = .ok ∨ (processClose accounts).2 = accounts := by
  unfold processClose
  repeat' split
  all_goals simp

/-- State returned by process_initialize equals the input whenever the run
is not a clean success: the borsh branches after the create CPI cannot fail
since the freshly created account holds exactly 8 zero bytes. -/
theorem processInitialize_frame (programId : Nat)
    (findProgramAddress : Nat → Nat → Nat × Nat) (requiredLamports : Nat)
    (accounts : List AccountInfo) :
    (processInitialize programId findProgramAddress requiredLamports accounts).1 = .ok ∨
      (processInitialize programId findProgramAddress requiredLamports accounts).2 =
        accounts := by
  unfold processInitialize
  repeat' split
  all_goals simp_all [counterTryFromSlice, counterSerializeInto]

/-- C8: whenever any of the four handlers returns a typed error, the
account state it returns is exactly the input state: every failure is
detected before the first mutation, so no partial update is visible. -/
theorem handlers_no_mutation_on_error (programId : Nat)
    (findProgramAddress : Nat → Nat → Nat × Nat) (requiredLamports : Nat)
    (accounts : List AccountInfo) (e : ProgramError) :
    ((processInitialize programId findProgramAddress requiredLamports accounts).1 = .err e →
      (processInitialize programId findProgramAddress requiredLamports accounts).2 =
        accounts) ∧
    ((processIncrement accounts).1 = .err e → (processIncrement accounts).2 = accounts) ∧
    ((processReset accounts).1 = .err e → (processReset accounts).2 = accounts) ∧
    ((processClose accounts).1 = .err e → (processClose accounts).2 = accounts) := by
  refine ⟨?_, ?_, ?_, ?_⟩
  · intro h
    rcases processInitialize_frame programId findProgramAddress requiredLamports accounts
      with h1 | h1
    · rw [h1] at h
      exact RunResult.noConfusion h
    · exact h1
  · intro h
    rcases processIncrement_frame accounts with h1 | h1
    · rw [h1] at h
      exact RunResult.noConfusion h
    · exact h1
  · intro h
    rcases processReset_frame accounts with h1 | h1
    · rw [h1] at h
      exact RunResult.noConfusion h
    · exact h1
  · intro h
    rcases processClose_frame accounts with h1 | h1
    · rw [h1] at h
      exact RunResult.noConfusion h
    · exact h1

/-- C8 witness: evaluated on the empty account list, where every handler
fails with NotEnoughAccountKeys and returns the list unchanged. -/
theorem handlers_no_mutation_on_error_witness :
    (processInitialize 0 (fun _ _ => (0, 0)) 0 []).2 = [] ∧
      (processIncrement []).2 = [] ∧ (processReset []).2 = [] ∧
      (processClose []).2 = [] := by
  obtain ⟨h1, h2, h3, h4⟩ :=
    handlers_no_mutation_on_error 0 (fun _ _ => (0, 0)) 0 [] .NotEnoughAccountKeys
  exact ⟨h1 rfl, h2 rfl, h3 rfl, h4 rfl⟩

/-- C9: process_initialize on an already funded counter account (lamports
greater than zero), called with a signing user and the matching derived
address, returns success and leaves every account untouched. -/
theorem initialize_idempotent (programId : Nat)
    (findProgramAddress : Nat → Nat → Nat × Nat) (requiredLamports : Nat)
    (counter user sys : AccountInfo) (rest : List AccountInfo)
    (hs : user.isSigner = true)
    (hk : counter.key = (findProgramAddress user.key programId).1)
    (hl : 0 < counter.lamports) :
    processInitialize programId findProgramAddress requiredLamports
        (counter :: user :: sys :: rest) =
      (.ok, counter :: user :: sys :: rest) := by
  simp [processInitialize, hs, hk, hl]

/-- C9 witness: evaluated on a concrete funded account with a matching
derived key. -/
theorem initialize_idempotent_witness :
    processInitialize 3 (fun u p => (u + p, 255)) 100
        [⟨5, false, true, 42, u64ToLeBytes 9⟩, ⟨2, true, false, 7, []⟩,
         ⟨0, false, false, 0, []⟩] =
      (.ok, [⟨5, false, true, 42, u64ToLeBytes 9⟩, ⟨2, true, false, 7, []⟩,
             ⟨0, false, false, 0, []⟩]) :=
  initialize_idempotent 3 (fun u p => (u + p, 255)) 100
    ⟨5, false, true, 42, u64ToLeBytes 9⟩ ⟨2, true, false, 7, []⟩
    ⟨0, false, false, 0, []⟩ [] rfl rfl (by decide)

end GongDe
